import Mathlib

/-!
Verification of the streaming chat screen (`src/chat_ui/screens/chat_screen.py`,
class `ModernChatScreen`) against its specification.

The screen's consumer-visible state is embedded as `ScreenState`:
* `messages` is the widget container `self.messages` kept in insertion order
  (oldest first).  Kivy stores `children` newest-first, so Python's
  `children[-1]` — removed by `_cleanup_old_messages` — is the head of the
  insertion-order list here, i.e. the oldest entry.
* each widget gets a unique numeric id (`nextId` counter) so that the Python
  object reference `self.current_bubble` can be embedded as `currentBubble :
  Option Nat`; updating the referenced widget is a map over the list that
  rewrites the entry with that id (an evicted widget is simply absent, so the
  update has no consumer-visible effect, exactly as mutating a detached
  widget).
* ghost trace fields record the observable interactions the claims speak
  about: `sentMessages` (arguments of `client.send_message`),
  `deliveredBatches` (texts handed by `_process_batched_chunks` to
  `_append_chunk_batch`), `scrollCount` (performed `_do_scroll` actions) and
  `flushSchedCount` (flush tasks handed to `Clock.schedule_once`).  They are
  write-only logs and influence no branch.
* wall-clock reads (`time.time()`) are threaded in as an explicit `now : Int`
  argument; `Clock.schedule_once(cb, delay)` for the scroll is embedded as the
  pair `scrollScheduled`/`pendingScrollDue` (flag plus due time of the pending
  event).
-/

/-- A `ModernBubble`: its label text and the `is_user` flag. -/
structure Bubble where
  text : String
  isUser : Bool
deriving Repr, DecidableEq

/-- Consumer-visible state of `ModernChatScreen` plus ghost trace fields. -/
structure ScreenState where
  textInput : String
  /-- `self.messages` in insertion order (oldest first), each with its id. -/
  messages : List (Nat × Bubble)
  nextId : Nat
  /-- `self.current_bubble` (id of the streaming bubble, if any). -/
  currentBubble : Option Nat
  backendAvailable : Bool
  maxMessages : Nat
  /-- `self._pending_chunks`. -/
  pendingChunks : List String
  /-- `self._text_update_scheduled`. -/
  textUpdateScheduled : Bool
  /-- `self._scroll_scheduled`. -/
  scrollScheduled : Bool
  /-- Due time of the pending `_do_throttled_scroll` event, if scheduled. -/
  pendingScrollDue : Option Int
  /-- `self._last_scroll_time`. -/
  lastScrollTime : Int
  /-- `self._scroll_throttle_delay`. -/
  scrollThrottleDelay : Int
  /-- Ghost: number of `_do_scroll` actions performed. -/
  scrollCount : Nat
  /-- Ghost: messages passed to `client.send_message`. -/
  sentMessages : List String
  /-- Ghost: batch texts passed from `_process_batched_chunks` to
  `_append_chunk_batch`. -/
  deliveredBatches : List String
  /-- Ghost: number of flush tasks scheduled by `_on_chunk`. -/
  flushSchedCount : Nat
deriving Repr, DecidableEq

/-- Python `''.join(chunks)`: concatenation in list order. -/
def join_all : List String → String
  | [] => ""
  | c :: cs => c ++ join_all cs

/-- Python `str.strip()`: leading and trailing whitespace removed
(whitespace modelled by `Char.isWhitespace`). -/
def py_strip (s : String) : String :=
  ⟨((s.data.dropWhile Char.isWhitespace).reverse.dropWhile Char.isWhitespace).reverse⟩

/-- `_scroll_to_bottom(force)`: immediate `_do_scroll` when forced or when the
throttle interval has elapsed since the last scroll, otherwise schedule one
`_do_throttled_scroll` if none is pending. -/
def scroll_to_bottom (now : Int) (force : Bool) (s : ScreenState) : ScreenState :=
  if force || decide (s.scrollThrottleDelay ≤ now - s.lastScrollTime) then
    { s with scrollCount := s.scrollCount + 1, lastScrollTime := now }
  else if !s.scrollScheduled then
    { s with scrollScheduled := true,
             pendingScrollDue := some (now + s.scrollThrottleDelay) }
  else
    s

/-- `_do_throttled_scroll`: clear the flag, perform the scroll, stamp the
time.  Firing the scheduled clock event consumes it. -/
def do_throttled_scroll (now : Int) (s : ScreenState) : ScreenState :=
  { s with scrollScheduled := false,
           pendingScrollDue := none,
           scrollCount := s.scrollCount + 1,
           lastScrollTime := now }

/-- `_cleanup_old_messages`: while over capacity, remove `children[-1]`, the
oldest widget; in insertion order that removes the first
`len - max_messages` entries. -/
def cleanup_old_messages (s : ScreenState) : ScreenState :=
  if s.messages.length > s.maxMessages then
    { s with messages := s.messages.drop (s.messages.length - s.maxMessages) }
  else
    s

/-- The demo text built by `_show_demo_response`. -/
def demo_text (message : String) : String :=
  "Demo response to: '" ++ message.take 30 ++
    (if message.length > 30 then "..." else "") ++ "'"

/-- `_show_demo_response`: append an AI bubble with the demo text, then
scroll. -/
def show_demo_response (now : Int) (message : String) (s : ScreenState) : ScreenState :=
  let s1 := { s with messages := s.messages ++ [(s.nextId, ⟨demo_text message, false⟩)],
                     nextId := s.nextId + 1 }
  scroll_to_bottom now false s1

/-- `_send_to_backend`: spawns the worker thread whose body calls
`client.send_message(message, ...)`; the ghost trace records that call. -/
def send_to_backend (message : String) (s : ScreenState) : ScreenState :=
  { s with sentMessages := s.sentMessages ++ [message] }

/-- `send_message`: strip the input; bail out when empty; clear the input,
append the user bubble, scroll, trim history, then either send to the backend
or synthesize the demo response. -/
def send_message (now : Int) (s : ScreenState) : ScreenState :=
  let messageText := py_strip s.textInput
  if messageText = "" then s
  else
    let s1 := { s with textInput := "" }
    let s2 := { s1 with messages := s1.messages ++ [(s1.nextId, ⟨messageText, true⟩)],
                        nextId := s1.nextId + 1 }
    let s3 := scroll_to_bottom now false s2
    let s4 := cleanup_old_messages s3
    if s4.backendAvailable then send_to_backend messageText s4
    else show_demo_response now messageText s4

/-- The `current_bubble.update_text(current_text + text)` widget mutation seen
from the widget tree: the entry whose id is referenced gets the appended text,
every other entry is untouched. -/
def bubble_update (cb : Option Nat) (text : String) (p : Nat × Bubble) : Nat × Bubble :=
  if cb = some p.1 then (p.1, Bubble.mk (p.2.text ++ text) p.2.isUser) else p

/-- `_append_chunk_batch(text)`: when no streaming bubble exists, create an
empty AI bubble and remember it in `current_bubble`; then replace the
referenced bubble's text with `old + text`; finally scroll. -/
def append_chunk_batch (now : Int) (text : String) (s : ScreenState) : ScreenState :=
  let s1 := match s.currentBubble with
    | some _ => s
    | none => { s with messages := s.messages ++ [(s.nextId, Bubble.mk "" false)],
                       currentBubble := some s.nextId,
                       nextId := s.nextId + 1 }
  let s2 := { s1 with messages := s1.messages.map (bubble_update s1.currentBubble text) }
  scroll_to_bottom now false s2

/-- `_process_batched_chunks`: flushing with nothing pending only clears the
flag; otherwise join the pending chunks in order, clear the buffer, hand the
combined text to `_append_chunk_batch`, clear the flag. -/
def process_batched_chunks (now : Int) (s : ScreenState) : ScreenState :=
  if s.pendingChunks = [] then
    { s with textUpdateScheduled := false }
  else
    let combined := join_all s.pendingChunks
    let s1 := { s with pendingChunks := [],
                       deliveredBatches := s.deliveredBatches ++ [combined] }
    let s2 := append_chunk_batch now combined s1
    { s2 with textUpdateScheduled := false }

/-- Tasks a worker thread hands to `Clock.schedule_once` for the
single-threaded scheduler. -/
inductive SchedTask where
  | setBackendAvailable (b : Bool)
  | setStatusOnline
  | setStatusDemoMode
  | showErrorMessage (msg : String)
  | processBatchedChunks
  | focusInput
deriving Repr, DecidableEq

/-- `_on_chunk(chunk)` as executed on the worker thread: the direct mutation
(append to `_pending_chunks`, set the flag) paired with the tasks it enqueues
(one flush, only when none was scheduled). -/
def on_chunk (chunk : String) (s : ScreenState) : ScreenState × List SchedTask :=
  let s1 := { s with pendingChunks := s.pendingChunks ++ [chunk] }
  if s1.textUpdateScheduled then (s1, [])
  else ({ s1 with textUpdateScheduled := true,
                  flushSchedCount := s1.flushSchedCount + 1 },
        [SchedTask.processBatchedChunks])

/-- `_threaded_test`: probes the backend on the worker thread and enqueues the
availability and status updates; it performs no direct mutation. -/
def threaded_test (testSuccess : Bool) (s : ScreenState) : ScreenState × List SchedTask :=
  (s, SchedTask.setBackendAvailable testSuccess ::
      [if testSuccess then SchedTask.setStatusOnline else SchedTask.setStatusDemoMode])

/-- Python `needle in hay`. -/
def py_contains (needle hay : String) : Bool := (hay.splitOn needle).length > 1

/-- Python `str.lower()`. -/
def py_lower (s : String) : String := s.map Char.toLower

/-- `_format_error_message`. -/
def format_error_message (error : String) : String :=
  if py_contains "Connection refused" error then
    "Cannot connect to server. Please check your connection."
  else if py_contains "timeout" (py_lower error) then
    "Request timed out. Please try again."
  else if py_contains "websocket" (py_lower error) then
    "Connection lost. Switching to demo mode."
  else
    "Something went wrong. Please try again."

/-- The exception path of `_threaded_send`: the worker thread only enqueues
the error display; the send itself is the `client.send_message` call whose
callbacks are modelled separately (`on_chunk`, `on_message_complete`). -/
def threaded_send_error (error : String) (s : ScreenState) : ScreenState × List SchedTask :=
  (s, [SchedTask.showErrorMessage (format_error_message error)])

/-- `_on_message_complete` as executed on the worker thread: clears
`current_bubble` directly and enqueues the input refocus. -/
def on_message_complete (s : ScreenState) : ScreenState × List SchedTask :=
  ({ s with currentBubble := none }, [SchedTask.focusInput])

/-- One event at the coalescer: a chunk arrival (`_on_chunk`) or the firing of
the scheduled flush (`_process_batched_chunks`). -/
inductive CoalEvent where
  | offer (c : String)
  | flush
deriving Repr, DecidableEq

/-- Run one coalescer event on the screen state. -/
def coal_step (now : Int) (s : ScreenState) (e : CoalEvent) : ScreenState :=
  match e with
  | CoalEvent.offer c => (on_chunk c s).1
  | CoalEvent.flush => process_batched_chunks now s

/-- Run a sequence of coalescer events. -/
def run_events (now : Int) (s : ScreenState) (es : List CoalEvent) : ScreenState :=
  es.foldl (coal_step now) s

/-- The chunks offered in an event sequence, in arrival order. -/
def coal_offered : List CoalEvent → List String
  | [] => []
  | CoalEvent.offer c :: es => c :: coal_offered es
  | CoalEvent.flush :: es => coal_offered es

/-- Run a sequence of unforced `_scroll_to_bottom` triggers at the given
times. -/
def run_scroll_triggers (ts : List Int) (s : ScreenState) : ScreenState :=
  ts.foldl (fun st t => scroll_to_bottom t false st) s

/-- A concrete default state used by concrete instantiations below. -/
def base_state : ScreenState :=
  { textInput := ""
    messages := []
    nextId := 0
    currentBubble := none
    backendAvailable := false
    maxMessages := 100
    pendingChunks := []
    textUpdateScheduled := false
    scrollScheduled := false
    pendingScrollDue := none
    lastScrollTime := 0
    scrollThrottleDelay := 100
    scrollCount := 0
    sentMessages := []
    deliveredBatches := []
    flushSchedCount := 0 }

/-! ### Basic lemmas about the embedded operations -/

theorem join_all_append (l1 l2 : List String) :
    join_all (l1 ++ l2) = join_all l1 ++ join_all l2 := by
  induction l1 with
  | nil => simp [join_all]
  | cons c cs ih => simp [join_all, ih, String.append_assoc]

@[simp] theorem scroll_to_bottom_messages (now : Int) (f : Bool) (s : ScreenState) :
    (scroll_to_bottom now f s).messages = s.messages := by
  unfold scroll_to_bottom
  split
  · rfl
  · split <;> rfl

@[simp] theorem scroll_to_bottom_currentBubble (now : Int) (f : Bool) (s : ScreenState) :
    (scroll_to_bottom now f s).currentBubble = s.currentBubble := by
  unfold scroll_to_bottom
  split
  · rfl
  · split <;> rfl

@[simp] theorem scroll_to_bottom_nextId (now : Int) (f : Bool) (s : ScreenState) :
    (scroll_to_bottom now f s).nextId = s.nextId := by
  unfold scroll_to_bottom
  split
  · rfl
  · split <;> rfl

@[simp] theorem scroll_to_bottom_pendingChunks (now : Int) (f : Bool) (s : ScreenState) :
    (scroll_to_bottom now f s).pendingChunks = s.pendingChunks := by
  unfold scroll_to_bottom
  split
  · rfl
  · split <;> rfl

@[simp] theorem scroll_to_bottom_textUpdateScheduled (now : Int) (f : Bool) (s : ScreenState) :
    (scroll_to_bottom now f s).textUpdateScheduled = s.textUpdateScheduled := by
  unfold scroll_to_bottom
  split
  · rfl
  · split <;> rfl

@[simp] theorem scroll_to_bottom_deliveredBatches (now : Int) (f : Bool) (s : ScreenState) :
    (scroll_to_bottom now f s).deliveredBatches = s.deliveredBatches := by
  unfold scroll_to_bottom
  split
  · rfl
  · split <;> rfl

@[simp] theorem scroll_to_bottom_sentMessages (now : Int) (f : Bool) (s : ScreenState) :
    (scroll_to_bottom now f s).sentMessages = s.sentMessages := by
  unfold scroll_to_bottom
  split
  · rfl
  · split <;> rfl

@[simp] theorem scroll_to_bottom_backendAvailable (now : Int) (f : Bool) (s : ScreenState) :
    (scroll_to_bottom now f s).backendAvailable = s.backendAvailable := by
  unfold scroll_to_bottom
  split
  · rfl
  · split <;> rfl

@[simp] theorem scroll_to_bottom_maxMessages (now : Int) (f : Bool) (s : ScreenState) :
    (scroll_to_bottom now f s).maxMessages = s.maxMessages := by
  unfold scroll_to_bottom
  split
  · rfl
  · split <;> rfl

@[simp] theorem scroll_to_bottom_textInput (now : Int) (f : Bool) (s : ScreenState) :
    (scroll_to_bottom now f s).textInput = s.textInput := by
  unfold scroll_to_bottom
  split
  · rfl
  · split <;> rfl

@[simp] theorem scroll_to_bottom_flushSchedCount (now : Int) (f : Bool) (s : ScreenState) :
    (scroll_to_bottom now f s).flushSchedCount = s.flushSchedCount := by
  unfold scroll_to_bottom
  split
  · rfl
  · split <;> rfl

@[simp] theorem scroll_to_bottom_scrollThrottleDelay (now : Int) (f : Bool) (s : ScreenState) :
    (scroll_to_bottom now f s).scrollThrottleDelay = s.scrollThrottleDelay := by
  unfold scroll_to_bottom
  split
  · rfl
  · split <;> rfl

theorem cleanup_messages_eq (s : ScreenState) :
    (cleanup_old_messages s).messages
      = s.messages.drop (s.messages.length - s.maxMessages) := by
  unfold cleanup_old_messages
  split
  · rfl
  · next h =>
    have h0 : s.messages.length - s.maxMessages = 0 :=
      Nat.sub_eq_zero_of_le (Nat.le_of_not_lt h)
    simp [h0]

@[simp] theorem cleanup_sentMessages (s : ScreenState) :
    (cleanup_old_messages s).sentMessages = s.sentMessages := by
  unfold cleanup_old_messages
  split <;> rfl

@[simp] theorem cleanup_backendAvailable (s : ScreenState) :
    (cleanup_old_messages s).backendAvailable = s.backendAvailable := by
  unfold cleanup_old_messages
  split <;> rfl

@[simp] theorem cleanup_nextId (s : ScreenState) :
    (cleanup_old_messages s).nextId = s.nextId := by
  unfold cleanup_old_messages
  split <;> rfl

@[simp] theorem cleanup_maxMessages (s : ScreenState) :
    (cleanup_old_messages s).maxMessages = s.maxMessages := by
  unfold cleanup_old_messages
  split <;> rfl

@[simp] theorem cleanup_currentBubble (s : ScreenState) :
    (cleanup_old_messages s).currentBubble = s.currentBubble := by
  unfold cleanup_old_messages
  split <;> rfl

@[simp] theorem on_chunk_pendingChunks (c : String) (s : ScreenState) :
    (on_chunk c s).1.pendingChunks = s.pendingChunks ++ [c] := by
  unfold on_chunk
  cases h : s.textUpdateScheduled <;> simp [h]

@[simp] theorem on_chunk_deliveredBatches (c : String) (s : ScreenState) :
    (on_chunk c s).1.deliveredBatches = s.deliveredBatches := by
  unfold on_chunk
  cases h : s.textUpdateScheduled <;> simp [h]

@[simp] theorem append_chunk_batch_pendingChunks (now : Int) (t : String) (s : ScreenState) :
    (append_chunk_batch now t s).pendingChunks = s.pendingChunks := by
  unfold append_chunk_batch
  cases s.currentBubble <;> simp

@[simp] theorem append_chunk_batch_deliveredBatches (now : Int) (t : String) (s : ScreenState) :
    (append_chunk_batch now t s).deliveredBatches = s.deliveredBatches := by
  unfold append_chunk_batch
  cases s.currentBubble <;> simp

@[simp] theorem process_batched_chunks_deliveredBatches (now : Int) (s : ScreenState) :
    (process_batched_chunks now s).deliveredBatches
      = if s.pendingChunks = [] then s.deliveredBatches
        else s.deliveredBatches ++ [join_all s.pendingChunks] := by
  unfold process_batched_chunks
  split <;> simp

@[simp] theorem process_batched_chunks_pendingChunks (now : Int) (s : ScreenState) :
    (process_batched_chunks now s).pendingChunks
      = if s.pendingChunks = [] then s.pendingChunks else [] := by
  unfold process_batched_chunks
  split <;> simp

theorem run_events_cons (now : Int) (s : ScreenState) (e : CoalEvent) (es : List CoalEvent) :
    run_events now s (e :: es) = run_events now (coal_step now s e) es := rfl

/-- Conservation of text through the coalescer: delivered text followed by
still-pending text always equals the initial contents plus everything offered
since, in order. -/
theorem run_events_invariant (now : Int) (es : List CoalEvent) (s : ScreenState) :
    join_all (run_events now s es).deliveredBatches
        ++ join_all (run_events now s es).pendingChunks
      = join_all s.deliveredBatches ++ (join_all s.pendingChunks
        ++ join_all (coal_offered es)) := by
  induction es generalizing s with
  | nil => simp [run_events, coal_offered, join_all]
  | cons e es ih =>
    rw [run_events_cons, ih]
    cases e with
    | offer c =>
      simp [coal_step, coal_offered, join_all, join_all_append, String.append_assoc]
    | flush =>
      by_cases h : s.pendingChunks = []
      · simp [coal_step, coal_offered, h, join_all]
      · simp [coal_step, coal_offered, h, join_all, join_all_append, String.append_assoc]

/-- C1: for every sequence of chunks offered via `_on_chunk` during one
streaming message, once the final scheduled flush has emptied the pending
buffer, the concatenation of the batch texts that `_process_batched_chunks`
passed to `_append_chunk_batch` equals the concatenation of the offered
chunks in arrival order — no loss, duplication or reordering. -/
theorem coalescer_preserves_text (now : Int) (s : ScreenState) (es : List CoalEvent)
    (h1 : s.pendingChunks = []) (h2 : s.deliveredBatches = [])
    (h3 : (run_events now s es).pendingChunks = []) :
    join_all (run_events now s es).deliveredBatches = join_all (coal_offered es) := by
  have h := run_events_invariant now es s
  rw [h1, h2, h3] at h
  simpa [join_all] using h

theorem coalescer_preserves_text_witness :
    base_state.pendingChunks = [] ∧ base_state.deliveredBatches = [] ∧
    (run_events 0 base_state
        [CoalEvent.offer "a", CoalEvent.offer "b", CoalEvent.flush]).pendingChunks = [] ∧
    join_all (run_events 0 base_state
        [CoalEvent.offer "a", CoalEvent.offer "b", CoalEvent.flush]).deliveredBatches
      = join_all (coal_offered
        [CoalEvent.offer "a", CoalEvent.offer "b", CoalEvent.flush]) :=
  ⟨rfl, rfl, by decide,
    coalescer_preserves_text 0 base_state
      [CoalEvent.offer "a", CoalEvent.offer "b", CoalEvent.flush] rfl rfl (by decide)⟩

/-- C7: if `"Hel"`, `"lo, "` and `"world"` are all offered before the single
scheduled flush fires, exactly one flush task is scheduled across the three
offers and exactly one batch, `"Hello, world"`, is delivered. -/
theorem three_chunks_one_batch :
    (on_chunk "Hel" base_state).2
        ++ (on_chunk "lo, " (on_chunk "Hel" base_state).1).2
        ++ (on_chunk "world" (on_chunk "lo, " (on_chunk "Hel" base_state).1).1).2
      = [SchedTask.processBatchedChunks] ∧
    (process_batched_chunks 0
        (on_chunk "world" (on_chunk "lo, " (on_chunk "Hel" base_state).1).1).1).deliveredBatches
      = ["Hello, world"] := by
  decide

/-- C8: executing the scheduled flush with an empty pending buffer is a no-op
on all consumer-visible state: it only clears the flush-scheduled flag. -/
theorem empty_flush_noop (now : Int) (s : ScreenState)
    (h : s.pendingChunks = []) :
    process_batched_chunks now s = { s with textUpdateScheduled := false } := by
  unfold process_batched_chunks
  rw [if_pos h]

theorem empty_flush_noop_witness :
    ({ base_state with textUpdateScheduled := true } : ScreenState).pendingChunks = [] ∧
    process_batched_chunks 0 { base_state with textUpdateScheduled := true }
      = { ({ base_state with textUpdateScheduled := true } : ScreenState) with
            textUpdateScheduled := false } :=
  ⟨rfl, empty_flush_noop 0 { base_state with textUpdateScheduled := true } rfl⟩

/-- C10: when the input text strips to the empty string, `send_message`
returns immediately and the whole state is unchanged: no widget is appended,
no send or demo response happens, the input field is not cleared. -/
theorem blank_input_noop (now : Int) (s : ScreenState)
    (h : py_strip s.textInput = "") :
    send_message now s = s := by
  simp [send_message, h]

theorem blank_input_noop_witness :
    py_strip ({ base_state with textInput := "   " } : ScreenState).textInput = "" ∧
    send_message 0 { base_state with textInput := "   " }
      = { base_state with textInput := "   " } :=
  ⟨by decide, blank_input_noop 0 { base_state with textInput := "   " } (by decide)⟩

/-- C2 (amended): after each `_cleanup_old_messages` call the store holds at
most `max_messages` entries and the retained entries are exactly the newest
ones in insertion order (the oldest `len - max_messages` are dropped); the
claim's per-append version fails because appends outside `send_message`'s
user bubble (demo, error and streaming bubbles) are not followed by a
cleanup. -/
theorem cleanup_bounds_history (s : ScreenState) :
    (cleanup_old_messages s).messages
        = s.messages.drop (s.messages.length - s.maxMessages)
      ∧ (cleanup_old_messages s).messages.length ≤ s.maxMessages := by
  refine ⟨cleanup_messages_eq s, ?_⟩
  rw [cleanup_messages_eq, List.length_drop]
  omega

/-- A demo-mode state with capacity 1 and one stored message. -/
def c2_state : ScreenState :=
  { base_state with
      textInput := "hi"
      maxMessages := 1
      messages := [(0, Bubble.mk "w" false)]
      nextId := 1 }

/-- C2 counterexample: with capacity 1, sending one message in demo mode ends
with two entries stored — the demo-response append happens after the only
cleanup, so `len ≤ maxMessages` does not hold after every append. -/
theorem history_bound_counterexample :
    c2_state.maxMessages = 1 ∧ (send_message 0 c2_state).messages.length = 2 := by
  decide

/-- A capacity-1 state whose streaming bubble is the oldest entry. -/
def c6_state : ScreenState :=
  { base_state with
      maxMessages := 1
      messages := [(0, Bubble.mk "streamed so far" false), (1, Bubble.mk "user text" true)]
      nextId := 2
      currentBubble := some 0 }

/-- C6 counterexample: with capacity 1 and the streaming bubble (id 0) as the
oldest of two entries, `_cleanup_old_messages` evicts exactly the entry being
streamed into — the code has no protection for `current_bubble`. -/
theorem eviction_removes_streaming_counterexample :
    c6_state.currentBubble = some 0 ∧
    (cleanup_old_messages c6_state).messages.map Prod.fst = [1] := by
  decide

/-- C6 (amended): eviction removes entries from the oldest end only — the
result is the suffix of the newest `max_messages` entries — and therefore
preserves the entry being streamed into whenever that entry is among the
newest `max_messages`; a streaming entry that falls into the evicted oldest
overflow is removed (see the counterexample). -/
theorem cleanup_preserves_recent_streaming (s : ScreenState) (i : Nat)
    (_hcb : s.currentBubble = some i)
    (hin : i ∈ (s.messages.drop (s.messages.length - s.maxMessages)).map Prod.fst) :
    (cleanup_old_messages s).messages
        = s.messages.drop (s.messages.length - s.maxMessages)
      ∧ i ∈ (cleanup_old_messages s).messages.map Prod.fst := by
  refine ⟨cleanup_messages_eq s, ?_⟩
  rw [cleanup_messages_eq]
  exact hin

/-- A capacity-1 state whose streaming bubble is the newest entry. -/
def c6w_state : ScreenState :=
  { base_state with
      maxMessages := 1
      messages := [(0, Bubble.mk "old user text" true), (1, Bubble.mk "streamed" false)]
      nextId := 2
      currentBubble := some 1 }

theorem cleanup_preserves_recent_streaming_witness :
    c6w_state.currentBubble = some 1 ∧
    1 ∈ (c6w_state.messages.drop (c6w_state.messages.length - c6w_state.maxMessages)).map Prod.fst ∧
    ((cleanup_old_messages c6w_state).messages
        = c6w_state.messages.drop (c6w_state.messages.length - c6w_state.maxMessages)
      ∧ 1 ∈ (cleanup_old_messages c6w_state).messages.map Prod.fst) :=
  ⟨by decide, by decide,
    cleanup_preserves_recent_streaming c6w_state 1 (by decide) (by decide)⟩

/-- C4: with a non-blank input and the backend unavailable, `send_message`
never reaches `client.send_message` (the sent-message trace is unchanged) and
instead appends a locally synthesized demo response as the newest history
entry. -/
theorem offline_send_uses_demo_fallback (now : Int) (s : ScreenState)
    (hne : py_strip s.textInput ≠ "")
    (hoff : s.backendAvailable = false) :
    (send_message now s).sentMessages = s.sentMessages ∧
    ((send_message now s).messages.map Prod.snd).getLast?
      = some (Bubble.mk (demo_text (py_strip s.textInput)) false) := by
  unfold send_message
  simp only [hne, ite_false, if_false]
  constructor
  · simp [hoff, show_demo_response, send_to_backend]
  · simp [hoff, show_demo_response, List.getLast?_concat]

/-- A concrete C4 instantiation: offline state with input `" hello "`. -/
def c4_state : ScreenState := { base_state with textInput := " hello " }

theorem offline_send_uses_demo_fallback_witness :
    py_strip c4_state.textInput ≠ "" ∧
    c4_state.backendAvailable = false ∧
    ((send_message 0 c4_state).sentMessages = c4_state.sentMessages ∧
     ((send_message 0 c4_state).messages.map Prod.snd).getLast?
       = some (Bubble.mk (demo_text (py_strip c4_state.textInput)) false)) :=
  ⟨by decide, rfl, offline_send_uses_demo_fallback 0 c4_state (by decide) rfl⟩

theorem append_chunk_batch_some (now : Int) (t : String) (s : ScreenState) (i : Nat)
    (h : s.currentBubble = some i) :
    append_chunk_batch now t s
      = scroll_to_bottom now false
          { s with messages := s.messages.map (bubble_update (some i) t) } := by
  unfold append_chunk_batch
  rw [h]
  dsimp only
  rw [h]

theorem append_chunk_batch_none (now : Int) (t : String) (s : ScreenState)
    (h : s.currentBubble = none) :
    append_chunk_batch now t s
      = scroll_to_bottom now false
          { s with
              messages := (s.messages ++ [(s.nextId, Bubble.mk "" false)]).map
                (bubble_update (some s.nextId) t),
              currentBubble := some s.nextId,
              nextId := s.nextId + 1 } := by
  unfold append_chunk_batch
  rw [h]

theorem map_bubble_update_skip (i : Nat) (t : String) :
    ∀ (l : List (Nat × Bubble)), (∀ p ∈ l, p.1 ≠ i) →
      l.map (bubble_update (some i) t) = l := by
  intro l
  induction l with
  | nil => intro _; rfl
  | cons q qs ih =>
    intro hq
    have hq1 : q.1 ≠ i := hq q (List.mem_cons_self q qs)
    have hfix : bubble_update (some i) t q = q := by
      unfold bubble_update
      rw [if_neg]
      intro hc
      exact hq1 (Option.some.inj hc).symm
    simp only [List.map_cons, hfix]
    rw [ih (fun p hp => hq p (List.mem_cons_of_mem q hp))]

theorem map_bubble_update_concat (i : Nat) (t : String) (ms : List (Nat × Bubble)) (b : Bubble)
    (hnot : ∀ p ∈ ms, p.1 ≠ i) :
    (ms ++ [(i, b)]).map (bubble_update (some i) t)
      = ms ++ [(i, Bubble.mk (b.text ++ t) b.isUser)] := by
  rw [List.map_append, map_bubble_update_skip i t ms hnot]
  simp [bubble_update]

/-- Folding `_append_chunk_batch` over deltas while `current_bubble` points at
the unique last entry appends the concatenated deltas to that entry's text and
touches no other entry. -/
theorem fold_append_chunk_update (now : Int) (ds : List String) :
    ∀ (st : ScreenState) (ms : List (Nat × Bubble)) (i : Nat) (b : Bubble),
      st.currentBubble = some i →
      st.messages = ms ++ [(i, b)] →
      (∀ p ∈ ms, p.1 ≠ i) →
      (ds.foldl (fun sAcc d => append_chunk_batch now d sAcc) st).messages
        = ms ++ [(i, Bubble.mk (b.text ++ join_all ds) b.isUser)] := by
  induction ds with
  | nil =>
    intro st ms i b hcb hm hnot
    simp [join_all, hm]
  | cons d ds ih =>
    intro st ms i b hcb hm hnot
    rw [List.foldl_cons]
    have hstep := append_chunk_batch_some now d st i hcb
    have hmsg : (append_chunk_batch now d st).messages
        = ms ++ [(i, Bubble.mk (b.text ++ d) b.isUser)] := by
      rw [hstep, scroll_to_bottom_messages]
      show (st.messages.map (bubble_update (some i) d)) = _
      rw [hm, map_bubble_update_concat i d ms b hnot]
    have hcb2 : (append_chunk_batch now d st).currentBubble = some i := by
      rw [hstep, scroll_to_bottom_currentBubble]
      exact hcb
    have := ih (append_chunk_batch now d st) ms i (Bubble.mk (b.text ++ d) b.isUser)
      hcb2 hmsg hnot
    rw [this]
    simp [join_all, String.append_assoc]

/-- C3: starting with no streaming message in progress, successively applying
`_append_chunk_batch` with each delta first appends an empty AI bubble and
then leaves the last history entry's text equal to the exact concatenation of
the deltas in order — no gaps, no duplication.  (`hfresh` states the id
counter's freshness, which holds in every reachable state.) -/
theorem update_last_reconstructs (now : Int) (s : ScreenState) (deltas : List String)
    (h0 : s.currentBubble = none)
    (hfresh : ∀ p ∈ s.messages, p.1 < s.nextId)
    (hne : deltas ≠ []) :
    ((deltas.foldl (fun st d => append_chunk_batch now d st) s).messages.map Prod.snd).getLast?
      = some (Bubble.mk (join_all deltas) false) := by
  cases deltas with
  | nil => exact absurd rfl hne
  | cons d ds =>
    rw [List.foldl_cons]
    have hstep := append_chunk_batch_none now d s h0
    have hnot : ∀ p ∈ s.messages, p.1 ≠ s.nextId :=
      fun p hp => Nat.ne_of_lt (hfresh p hp)
    have hmsg : (append_chunk_batch now d s).messages
        = s.messages ++ [(s.nextId, Bubble.mk ("" ++ d) false)] := by
      rw [hstep, scroll_to_bottom_messages]
      show (s.messages ++ [(s.nextId, Bubble.mk "" false)]).map
        (bubble_update (some s.nextId) d) = _
      rw [map_bubble_update_concat s.nextId d s.messages (Bubble.mk "" false) hnot]
    have hcb : (append_chunk_batch now d s).currentBubble = some s.nextId := by
      rw [hstep, scroll_to_bottom_currentBubble]
    have hfold := fold_append_chunk_update now ds (append_chunk_batch now d s)
      s.messages s.nextId (Bubble.mk ("" ++ d) false) hcb hmsg hnot
    rw [hfold, List.map_append]
    simp [join_all, List.getLast?_concat]

theorem update_last_reconstructs_witness :
    base_state.currentBubble = none ∧
    (∀ p ∈ base_state.messages, p.1 < base_state.nextId) ∧
    (["He", "llo"] : List String) ≠ [] ∧
    ((["He", "llo"].foldl (fun st d => append_chunk_batch 0 d st) base_state).messages.map
        Prod.snd).getLast?
      = some (Bubble.mk (join_all ["He", "llo"]) false) :=
  ⟨rfl, by decide, by decide,
    update_last_reconstructs 0 base_state ["He", "llo"] rfl (by decide) (by decide)⟩

theorem scroll_to_bottom_noop (t : Int) (s : ScreenState)
    (hsched : s.scrollScheduled = true)
    (hwin : t - s.lastScrollTime < s.scrollThrottleDelay) :
    scroll_to_bottom t false s = s := by
  unfold scroll_to_bottom
  rw [show (false || decide (s.scrollThrottleDelay ≤ t - s.lastScrollTime)) = false by
    simp [not_le.mpr hwin]]
  rw [hsched]
  simp

theorem scroll_to_bottom_defer (t : Int) (s : ScreenState)
    (hsched : s.scrollScheduled = false)
    (hwin : t - s.lastScrollTime < s.scrollThrottleDelay) :
    scroll_to_bottom t false s
      = { s with scrollScheduled := true,
                 pendingScrollDue := some (t + s.scrollThrottleDelay) } := by
  unfold scroll_to_bottom
  rw [show (false || decide (s.scrollThrottleDelay ≤ t - s.lastScrollTime)) = false by
    simp [not_le.mpr hwin]]
  rw [hsched]
  simp

theorem run_scroll_triggers_noop (ts : List Int) :
    ∀ s : ScreenState, s.scrollScheduled = true →
      (∀ t ∈ ts, t - s.lastScrollTime < s.scrollThrottleDelay) →
      run_scroll_triggers ts s = s := by
  induction ts with
  | nil => intro s _ _; rfl
  | cons t ts ih =>
    intro s hs hw
    unfold run_scroll_triggers
    rw [List.foldl_cons,
      scroll_to_bottom_noop t s hs (hw t (List.mem_cons_self t ts))]
    exact ih s hs (fun u hu => hw u (List.mem_cons_of_mem t hu))

/-- C5: any number of unforced scroll triggers arriving while the throttle
window is open (each less than `scroll_throttle_delay` after the last
performed scroll) perform no immediate scroll and leave exactly one deferred
scroll event, due `scroll_throttle_delay` after the first deferred trigger;
that stays true after every prefix of the triggers (never more than one
queued), and firing the deferred event performs exactly one scroll. -/
theorem scroll_triggers_coalesce (s : ScreenState) (t1 : Int) (rest : List Int)
    (hns : s.scrollScheduled = false)
    (h1 : t1 - s.lastScrollTime < s.scrollThrottleDelay)
    (hr : ∀ t ∈ rest, t - s.lastScrollTime < s.scrollThrottleDelay) :
    run_scroll_triggers (t1 :: rest) s
        = { s with scrollScheduled := true,
                   pendingScrollDue := some (t1 + s.scrollThrottleDelay) }
      ∧ (∀ l1 l2, rest = l1 ++ l2 →
          run_scroll_triggers (t1 :: l1) s
            = { s with scrollScheduled := true,
                       pendingScrollDue := some (t1 + s.scrollThrottleDelay) })
      ∧ (do_throttled_scroll (t1 + s.scrollThrottleDelay)
          (run_scroll_triggers (t1 :: rest) s)).scrollCount = s.scrollCount + 1 := by
  have hstep := scroll_to_bottom_defer t1 s hns h1
  have hmain : run_scroll_triggers (t1 :: rest) s
      = { s with scrollScheduled := true,
                 pendingScrollDue := some (t1 + s.scrollThrottleDelay) } := by
    show run_scroll_triggers rest (scroll_to_bottom t1 false s) = _
    rw [hstep]
    exact run_scroll_triggers_noop rest _ rfl (fun t ht => hr t ht)
  refine ⟨hmain, ?_, ?_⟩
  · intro l1 l2 hsplit
    have hr1 : ∀ t ∈ l1, t - s.lastScrollTime < s.scrollThrottleDelay := by
      intro t ht
      exact hr t (by rw [hsplit]; exact List.mem_append_left l2 ht)
    show run_scroll_triggers l1 (scroll_to_bottom t1 false s) = _
    rw [hstep]
    exact run_scroll_triggers_noop l1 _ rfl hr1
  · rw [hmain]
    rfl

theorem scroll_triggers_coalesce_witness :
    base_state.scrollScheduled = false ∧
    (3 : Int) - base_state.lastScrollTime < base_state.scrollThrottleDelay ∧
    (∀ t ∈ ([5, 7] : List Int),
      t - base_state.lastScrollTime < base_state.scrollThrottleDelay) ∧
    (run_scroll_triggers (3 :: [5, 7]) base_state
        = { base_state with scrollScheduled := true,
                            pendingScrollDue := some (3 + base_state.scrollThrottleDelay) }
      ∧ (∀ l1 l2, ([5, 7] : List Int) = l1 ++ l2 →
          run_scroll_triggers (3 :: l1) base_state
            = { base_state with scrollScheduled := true,
                                pendingScrollDue := some (3 + base_state.scrollThrottleDelay) })
      ∧ (do_throttled_scroll (3 + base_state.scrollThrottleDelay)
          (run_scroll_triggers (3 :: [5, 7]) base_state)).scrollCount
          = base_state.scrollCount + 1) :=
  ⟨rfl, by decide, by decide,
    scroll_triggers_coalesce base_state 3 [5, 7] rfl (by decide) (by decide)⟩

/-- C9 counterexample: `_on_chunk`, executed on the worker thread by
`client.send_message`, mutates the consumer-visible pending-chunk buffer
directly rather than enqueuing a scheduler task that would do it. -/
theorem worker_direct_mutation_counterexample :
    (on_chunk "x" base_state).1.pendingChunks ≠ base_state.pendingChunks := by
  decide

/-- C9 (amended): `_threaded_test` and the exception path of `_threaded_send`
perform no direct mutation and hand all consumer-visible updates to the
scheduler as tasks; but the worker-side chunk callback `_on_chunk` appends to
the pending-chunk buffer directly (enqueuing at most the one flush task), and
`_on_message_complete` clears the current-bubble marker directly. -/
theorem worker_handoff_amended :
    (∀ (b : Bool) (s : ScreenState), (threaded_test b s).1 = s) ∧
    (∀ (e : String) (s : ScreenState), (threaded_send_error e s).1 = s) ∧
    (∀ (c : String) (s : ScreenState),
        (on_chunk c s).1.pendingChunks = s.pendingChunks ++ [c] ∧
        (on_chunk c s).2.length ≤ 1) ∧
    (∀ s : ScreenState, (on_message_complete s).1 = { s with currentBubble := none }) := by
  refine ⟨fun b s => rfl, fun e s => rfl,
    fun c s => ⟨on_chunk_pendingChunks c s, ?_⟩, fun s => rfl⟩
  unfold on_chunk
  cases h : s.textUpdateScheduled <;> simp [h]
